import Mathlib

/-!
Verification of the Aerospike info-plane control code (thr_info.c, ticker.c):
a shallow embedding of the parameter extractor, the sindex SMD decision
logic, the config mutator, the cluster-stable command, the info worker pool,
the reply framing, the ticker fabric-rate computation and the request
dispatcher, with theorems checking the natural-language specification.
-/

namespace Aerospike

/-! ## Parameter extractor (as_info_parameter_get, thr_info.c:4892-4928)

The C function scans a semicolon-delimited key=value string for a target
key and copies the value into a caller buffer of a given size, returning
0 (found), -1 (not found) or -2 (value too long for the buffer). -/

/-- Outcome of the parameter extractor: return values 0 / -1 / -2 of the
C function. -/
inductive ParamGetResult where
  | found (value : List Char)
  | missing
  | tooLong
deriving DecidableEq

/-- Mirrors the value scan "while (*c != 0 && *c != ';') c++" of
as_info_parameter_get: the value runs to the next semicolon or the end. -/
def param_value_chars : List Char → List Char
  | [] => []
  | c :: cs => if c = ';' then [] else c :: param_value_chars cs

/-- After the key matched, the C code takes the value up to a semicolon or
the end and rejects it when the caller bound is not strictly larger than
its length ("if (*value_len <= c - tok) return -2", thr_info.c:4908). -/
def param_value_scan (bound : Nat) (rest : List Char) : ParamGetResult :=
  let v := param_value_chars rest
  if bound ≤ v.length then ParamGetResult.tooLong else ParamGetResult.found v

/-- The main scanning loop of as_info_parameter_get. The second list is the
token accumulated since the last semicolon (the region between tok and c in
the C code); on an equals sign the token is compared with the target key,
on a semicolon the token restarts, any other character extends the token
(a non-matching equals sign also stays inside the token, as in the source
where tok is not advanced on a failed comparison). -/
def info_param_loop (param : List Char) (bound : Nat) : List Char → List Char → ParamGetResult
  | [], _ => ParamGetResult.missing
  | c :: cs, tok =>
    if c = '=' then
      if tok = param then param_value_scan bound cs
      else info_param_loop param bound cs (tok ++ [c])
    else if c = ';' then
      info_param_loop param bound cs []
    else
      info_param_loop param bound cs (tok ++ [c])

/-- as_info_parameter_get (thr_info.c:4892-4928): scan param_str for param,
with the caller's inout length bound. -/
def as_info_parameter_get (param_str param : List Char) (bound : Nat) : ParamGetResult :=
  info_param_loop param bound param_str []

/-- String-level wrapper used by the command handlers, which pass a stack
buffer of a fixed size as the bound. -/
def param_get_str (params key : String) (bound : Nat) : ParamGetResult :=
  as_info_parameter_get params.toList key.toList bound

lemma param_value_chars_append (v rest : List Char)
    (hv : ∀ c ∈ v, c ≠ ';') (hr : rest = [] ∨ ∃ r, rest = ';' :: r) :
    param_value_chars (v ++ rest) = v := by
  induction v with
  | nil =>
    rcases hr with h | ⟨r, h⟩ <;> simp [h, param_value_chars]
  | cons c cs ih =>
    have hc : c ≠ ';' := hv c (by simp)
    simp only [List.cons_append, param_value_chars, if_neg hc, List.append_eq]
    rw [ih (fun d hd => hv d (by simp [hd]))]

lemma info_param_loop_skip (param : List Char) (bound : Nat)
    (ks : List Char) (hk : ∀ c ∈ ks, c ≠ '=' ∧ c ≠ ';') :
    ∀ (rest tok : List Char),
      info_param_loop param bound (ks ++ rest) tok =
        info_param_loop param bound rest (tok ++ ks) := by
  induction ks with
  | nil => intro rest tok; simp
  | cons k ks ih =>
    intro rest tok
    have h1 : k ≠ '=' := (hk k (by simp)).1
    have h2 : k ≠ ';' := (hk k (by simp)).2
    simp only [List.cons_append, info_param_loop, if_neg h1, if_neg h2, List.append_eq]
    rw [ih (fun c hc => hk c (by simp [hc])) rest (tok ++ [k])]
    simp

/-- Claim C4 (counterexample): with caller bound 2, the value "ab" of
length exactly 2 is NOT accepted: the extractor reports too-long, because
the source rejects a value as soon as the bound is less than OR EQUAL to
the value length ("if (*value_len <= c - tok) return -2"), reserving one
byte of the caller buffer for the NUL terminator. The claim would require
the found outcome here. -/
theorem param_get_exact_bound_rejected :
    as_info_parameter_get ['k', '=', 'a', 'b'] ['k'] 2 = ParamGetResult.tooLong ∧
      ¬ as_info_parameter_get ['k', '=', 'a', 'b'] ['k'] 2 = ParamGetResult.found ['a', 'b'] := by
  constructor
  · rfl
  · intro h
    simp [as_info_parameter_get, info_param_loop, param_value_scan, param_value_chars] at h

/-- Claim C4 (amended): for a parameter string holding the target key with
a value of length L and a caller bound B, the extractor accepts the value
exactly when L is strictly below B (so length B-1 is the largest accepted
and length B is rejected as too-long with no value copied); on arbitrary
input it returns exactly one of the outcomes found, missing or too-long. -/
theorem param_get_bound_spec (key value rest : List Char) (bound : Nat)
    (hkey : ∀ c ∈ key, c ≠ '=' ∧ c ≠ ';')
    (hval : ∀ c ∈ value, c ≠ ';')
    (hrest : rest = [] ∨ ∃ r, rest = ';' :: r) :
    (as_info_parameter_get (key ++ '=' :: (value ++ rest)) key bound =
        if value.length < bound then ParamGetResult.found value else ParamGetResult.tooLong) ∧
      ∀ (ps p : List Char) (b : Nat),
        (∃ v, as_info_parameter_get ps p b = ParamGetResult.found v) ∨
          as_info_parameter_get ps p b = ParamGetResult.missing ∨
          as_info_parameter_get ps p b = ParamGetResult.tooLong := by
  constructor
  · unfold as_info_parameter_get
    rw [info_param_loop_skip key bound key hkey ('=' :: (value ++ rest)) []]
    have hstep : info_param_loop key bound ('=' :: (value ++ rest)) key =
        param_value_scan bound (value ++ rest) := by
      simp [info_param_loop]
    simp only [List.nil_append]
    rw [hstep]
    unfold param_value_scan
    rw [param_value_chars_append value rest hval hrest]
    by_cases h : value.length < bound
    · rw [if_neg (by omega), if_pos h]
    · rw [if_pos (by omega), if_neg h]
  · intro ps p b
    rcases h : as_info_parameter_get ps p b with v | _ | _
    · exact Or.inl ⟨v, rfl⟩
    · exact Or.inr (Or.inl rfl)
    · exact Or.inr (Or.inr rfl)

/-- Witness for the amended claim C4 at a concrete input: key "k", value
"a" of length 1 against bound 2 is accepted with the value copied. -/
theorem param_get_bound_spec_witness :
    as_info_parameter_get ['k', '=', 'a'] ['k'] 2 = ParamGetResult.found ['a'] := by
  have h := param_get_bound_spec ['k'] ['a'] [] 2 (by decide) (by decide) (Or.inl rfl)
  simpa using h.1

/-! ## Secondary-index SMD snapshot classification
(find_sindex_key, thr_info.c:5939-5992; info_command_sindex_create,
thr_info.c:6190-6244)

An SMD item is a replicated (key, value) pair; a NULL value marks a
tombstone. For the sindex module the key starts with the namespace name
followed by a vertical bar, and the value is the index name. -/

/-- An SMD item as seen by the get_all visitor. -/
structure SmdItem where
  key : String
  value : Option String
deriving DecidableEq

/-- The namespace component of a sindex SMD key: the part before the first
vertical bar. Mirrors "strchr(item->key, vbar)" plus the length/memcmp
prefix comparison; a key with no separator is skipped (none). -/
def sindex_ns_of_key (key : String) : Option String :=
  if key.toList.contains '|' then
    some (String.mk (key.toList.takeWhile (fun ch => ch != '|')))
  else
    none

/-- The accumulator of the find_sindex_key visitor (find_sindex_key_udata
in the source). ns_name and index_name are the request inputs; smd_key is
the composed key still being looked for (cleared once seen, "can only be
one"); found_key is the key of the unique name match, if unique so far. -/
structure FindSindexKeyState where
  ns_name : String
  index_name : String
  smd_key : Option String
  found_key : Option String
  n_name_matches : Nat
  n_indexes : Nat
  has_smd_key : Bool
deriving DecidableEq

/-- One iteration of the find_sindex_key loop (thr_info.c:5950-5991):
skip tombstones and malformed or foreign-namespace keys; count namespace
indexes; flag the composed key when seen; count index-name matches and
track the unique matching key. -/
def find_sindex_key_item (st : FindSindexKeyState) (item : SmdItem) : FindSindexKeyState :=
  match item.value with
  | none => st
  | some v =>
    match sindex_ns_of_key item.key with
    | none => st
    | some ns =>
      if ns ≠ st.ns_name then st
      else
        let st1 := { st with n_indexes := st.n_indexes + 1 }
        let st2 :=
          match st1.smd_key with
          | some k =>
            if k = item.key then { st1 with has_smd_key := true, smd_key := none } else st1
          | none => st1
        if v ≠ st2.index_name then st2
        else
          let st3 := { st2 with n_name_matches := st2.n_name_matches + 1 }
          if st3.n_name_matches = 1 then { st3 with found_key := some item.key }
          else { st3 with found_key := none }

/-- find_sindex_key (thr_info.c:5939-5992): fold the visitor over the SMD
snapshot, starting from the zero-initialized udata. -/
def find_sindex_key (ns_name index_name : String) (smd_key : Option String)
    (items : List SmdItem) : FindSindexKeyState :=
  items.foldl find_sindex_key_item
    { ns_name := ns_name, index_name := index_name, smd_key := smd_key,
      found_key := none, n_name_matches := 0, n_indexes := 0, has_smd_key := false }

/-- The five ways info_command_sindex_create may reply after the snapshot
is classified (thr_info.c:6203-6243): OK for an identical existing
definition, the three failure replies, or proceeding to the blocking SMD
set (which replies OK, or a timeout error). -/
inductive SindexCreateReply where
  | okExisting
  | failDifferentDef
  | failAmbiguous
  | failMaxCount
  | issueSet
deriving DecidableEq

/-- The decision chain of info_command_sindex_create on the classified
snapshot (thr_info.c:6203-6231): a unique name match decides between OK
and the different-definition failure; then multiple matches fail as
ambiguous; then the definition cap is enforced only when the composed key
is not already present; otherwise the blocking set is issued. -/
def info_command_sindex_create_decide (fsk : FindSindexKeyState) (smd_key : String)
    (max_n_sindexes : Nat) : SindexCreateReply :=
  match fsk.found_key with
  | some k =>
    if k ≠ smd_key then SindexCreateReply.failDifferentDef else SindexCreateReply.okExisting
  | none =>
    if fsk.n_name_matches > 1 then SindexCreateReply.failAmbiguous
    else if fsk.has_smd_key = false ∧ max_n_sindexes ≤ fsk.n_indexes then
      SindexCreateReply.failMaxCount
    else SindexCreateReply.issueSet

/-- A live snapshot item belonging to the given namespace (not a tombstone,
key has a separator, namespace component matches). -/
def sindex_item_in_ns (ns_name : String) (item : SmdItem) : Bool :=
  item.value.isSome && (sindex_ns_of_key item.key == some ns_name)

/-- The keys of the live items of the namespace whose value equals the
requested index name, in snapshot order. -/
def sindex_match_keys (ns_name index_name : String) (items : List SmdItem) : List String :=
  (items.filter (fun it => sindex_item_in_ns ns_name it && (it.value == some index_name))).map
    (fun it => it.key)

/-- The number of live index definitions of the namespace in the snapshot. -/
def sindex_n_indexes (ns_name : String) (items : List SmdItem) : Nat :=
  (items.filter (fun it => sindex_item_in_ns ns_name it)).length

/-- Whether some live item of the namespace carries exactly the given key. -/
def sindex_has_key (ns_name smd_key : String) (items : List SmdItem) : Bool :=
  items.any (fun it => sindex_item_in_ns ns_name it && (it.key == smd_key))

/-- What find_sindex_key leaves in found_key, as a function of the list of
name-match keys of the processed items and the starting match count. -/
def found_key_spec (m : Nat) (f : Option String) (l : List String) : Option String :=
  match l with
  | [] => f
  | [k] => if m = 0 then some k else none
  | _ :: _ :: _ => none

/-- Whether the still-searched-for composed key occurs among the live
namespace items. -/
def smd_key_seen (ns_name : String) (smd_key : Option String) (items : List SmdItem) : Bool :=
  match smd_key with
  | none => false
  | some k => sindex_has_key ns_name k items

lemma sindex_n_indexes_cons (ns : String) (i : SmdItem) (rest : List SmdItem) :
    sindex_n_indexes ns (i :: rest) =
      (if sindex_item_in_ns ns i = true then 1 else 0) + sindex_n_indexes ns rest := by
  by_cases h : sindex_item_in_ns ns i = true <;>
    simp [sindex_n_indexes, List.filter_cons, h, Nat.add_comm]

lemma sindex_match_keys_cons (ns nm : String) (i : SmdItem) (rest : List SmdItem) :
    sindex_match_keys ns nm (i :: rest) =
      (if (sindex_item_in_ns ns i && (i.value == some nm)) = true then [i.key] else []) ++
        sindex_match_keys ns nm rest := by
  by_cases h : (sindex_item_in_ns ns i && (i.value == some nm)) = true <;>
    simp [sindex_match_keys, List.filter_cons, h]

lemma sindex_has_key_cons (ns k : String) (i : SmdItem) (rest : List SmdItem) :
    sindex_has_key ns k (i :: rest) =
      ((sindex_item_in_ns ns i && (i.key == k)) || sindex_has_key ns k rest) := by
  simp [sindex_has_key]

lemma found_key_spec_cons_pos (m : Nat) (f : Option String) (k : String) (l : List String)
    (hm : m ≠ 0) : found_key_spec m f (k :: l) = none := by
  cases l <;> simp [found_key_spec, hm]

/-- The visitor leaves the state unchanged on a tombstone, a key with no
separator, or a foreign namespace. -/
lemma find_sindex_key_item_of_not_in_ns (st : FindSindexKeyState) (i : SmdItem)
    (h : sindex_item_in_ns st.ns_name i = false) : find_sindex_key_item st i = st := by
  unfold find_sindex_key_item
  cases hv : i.value with
  | none => rfl
  | some v =>
    cases hns : sindex_ns_of_key i.key with
    | none => rfl
    | some ns =>
      have hne : ns ≠ st.ns_name := by
        intro he
        rw [sindex_item_in_ns, hv, hns, he] at h
        simp at h
      simp [hne]

/-- The visitor's effect on a live item of the namespace, written as one
explicit record. -/
lemma find_sindex_key_item_in_ns (st : FindSindexKeyState) (i : SmdItem) (v : String)
    (hv : i.value = some v) (hns : sindex_ns_of_key i.key = some st.ns_name) :
    find_sindex_key_item st i =
      { ns_name := st.ns_name, index_name := st.index_name,
        smd_key := if st.smd_key = some i.key then none else st.smd_key,
        found_key :=
          if v = st.index_name then
            (if st.n_name_matches = 0 then some i.key else none)
          else st.found_key,
        n_name_matches :=
          if v = st.index_name then st.n_name_matches + 1 else st.n_name_matches,
        n_indexes := st.n_indexes + 1,
        has_smd_key := st.has_smd_key || decide (st.smd_key = some i.key) } := by
  unfold find_sindex_key_item
  rw [hv, hns]
  simp only [ne_eq, not_true_eq_false, if_false, ite_false]
  cases hsk : st.smd_key with
  | none =>
    by_cases hname : v = st.index_name
    · by_cases hm : st.n_name_matches = 0 <;>
        simp [hsk, hname, hm, Nat.add_eq_zero]
    · simp [hsk, hname]
  | some k =>
    by_cases hk : k = i.key
    · by_cases hname : v = st.index_name
      · by_cases hm : st.n_name_matches = 0 <;>
          simp [hsk, hk, hname, hm, Nat.add_eq_zero]
      · simp [hsk, hk, hname]
    · have hk2 : ¬ (some k = some i.key) := by simp [hk]
      by_cases hname : v = st.index_name
      · by_cases hm : st.n_name_matches = 0 <;>
          simp [hsk, hk, hk2, hname, hm, Nat.add_eq_zero]
      · simp [hsk, hk, hk2, hname]

/-- Full characterization of the find_sindex_key fold: the result fields
as functions of the snapshot, for any starting state. -/
lemma find_sindex_key_foldl_spec (items : List SmdItem) :
    ∀ st : FindSindexKeyState,
      ((items.foldl find_sindex_key_item st).ns_name = st.ns_name) ∧
        ((items.foldl find_sindex_key_item st).index_name = st.index_name) ∧
        ((items.foldl find_sindex_key_item st).n_indexes
            = st.n_indexes + sindex_n_indexes st.ns_name items) ∧
        ((items.foldl find_sindex_key_item st).n_name_matches
            = st.n_name_matches
              + (sindex_match_keys st.ns_name st.index_name items).length) ∧
        ((items.foldl find_sindex_key_item st).has_smd_key
            = (st.has_smd_key || smd_key_seen st.ns_name st.smd_key items)) ∧
        ((items.foldl find_sindex_key_item st).smd_key
            = (if smd_key_seen st.ns_name st.smd_key items = true then none else st.smd_key)) ∧
        ((items.foldl find_sindex_key_item st).found_key
            = found_key_spec st.n_name_matches st.found_key
                (sindex_match_keys st.ns_name st.index_name items)) := by
  induction items with
  | nil =>
    intro st
    cases hsk : st.smd_key <;>
      simp [sindex_n_indexes, sindex_match_keys, smd_key_seen, sindex_has_key,
        found_key_spec, hsk]
  | cons i rest ih =>
    intro st
    have hfold : (i :: rest).foldl find_sindex_key_item st
        = rest.foldl find_sindex_key_item (find_sindex_key_item st i) := rfl
    by_cases hin : sindex_item_in_ns st.ns_name i = true
    · obtain ⟨v, hv⟩ : ∃ v, i.value = some v := by
        rcases hval : i.value with _ | v
        · rw [sindex_item_in_ns, hval] at hin; simp at hin
        · exact ⟨v, rfl⟩
      have hns : sindex_ns_of_key i.key = some st.ns_name := by
        rw [sindex_item_in_ns, hv] at hin
        simp at hin
        exact hin
      rw [hfold, find_sindex_key_item_in_ns st i v hv hns]
      have ih' := ih
        { ns_name := st.ns_name
          index_name := st.index_name
          smd_key := if st.smd_key = some i.key then none else st.smd_key
          found_key :=
            if v = st.index_name then
              (if st.n_name_matches = 0 then some i.key else none)
            else st.found_key
          n_name_matches :=
            if v = st.index_name then st.n_name_matches + 1 else st.n_name_matches
          n_indexes := st.n_indexes + 1
          has_smd_key := st.has_smd_key || decide (st.smd_key = some i.key) }
      simp only at ih'
      obtain ⟨e1, e2, e3, e4, e5, e6, e7⟩ := ih'
      have hmatch : (i.value == some st.index_name) = decide (v = st.index_name) := by
        rw [hv]; by_cases hname : v = st.index_name <;> simp [hname]
      refine ⟨e1, e2, ?_, ?_, ?_, ?_, ?_⟩
      · rw [e3, sindex_n_indexes_cons, if_pos hin]; omega
      · rw [e4, sindex_match_keys_cons]
        by_cases hname : v = st.index_name <;>
          simp [hin, hmatch, hname] <;> omega
      · rw [e5]
        cases hsk : st.smd_key with
        | none => simp [smd_key_seen]
        | some k =>
          by_cases hk : k = i.key
          · simp [smd_key_seen, hsk, hk, sindex_has_key_cons, hin]
          · have hne : ¬ ((some k : Option String) = some i.key) := by simp [hk]
            have hne2 : ¬ (i.key = k) := fun h => hk h.symm
            have hbe : (i.key == k) = false := beq_eq_false_iff_ne.mpr hne2
            simp [smd_key_seen, hsk, hk, sindex_has_key_cons, hin, hne, hbe]
      · rw [e6]
        cases hsk : st.smd_key with
        | none => simp [smd_key_seen]
        | some k =>
          by_cases hk : k = i.key
          · simp [smd_key_seen, hsk, hk, sindex_has_key_cons, hin]
          · have hne : ¬ ((some k : Option String) = some i.key) := by simp [hk]
            have hne2 : ¬ (i.key = k) := fun h => hk h.symm
            have hbe : (i.key == k) = false := beq_eq_false_iff_ne.mpr hne2
            simp [smd_key_seen, hsk, hk, sindex_has_key_cons, hin, hne, hbe, hne2]
      · rw [e7, sindex_match_keys_cons]
        by_cases hname : v = st.index_name
        · have hcond : (sindex_item_in_ns st.ns_name i && (i.value == some st.index_name)) = true := by
            rw [hmatch]
            simp [hin, hname]
          rw [hcond]
          rcases hL : sindex_match_keys st.ns_name st.index_name rest with _ | ⟨k', L⟩
          · by_cases hm : st.n_name_matches = 0 <;> simp [found_key_spec, hm, hname, hL]
          · by_cases hm : st.n_name_matches = 0 <;> cases L <;>
              simp [found_key_spec, hm, hname, hL]
        · have hcond : (sindex_item_in_ns st.ns_name i && (i.value == some st.index_name)) = false := by
            rw [hmatch]
            simp [hname]
          rw [hcond]
          simp [hname]
    · have hin' : sindex_item_in_ns st.ns_name i = false := by
        cases h : sindex_item_in_ns st.ns_name i
        · rfl
        · exact absurd h hin
      rw [hfold, find_sindex_key_item_of_not_in_ns st i hin']
      have ih' := ih st
      have hskip : ∀ nm : String,
          sindex_match_keys st.ns_name nm (i :: rest) = sindex_match_keys st.ns_name nm rest := by
        intro nm
        rw [sindex_match_keys_cons, if_neg (by simp [hin']), List.nil_append]
      have hseen : smd_key_seen st.ns_name st.smd_key (i :: rest)
          = smd_key_seen st.ns_name st.smd_key rest := by
        cases hsk : st.smd_key with
        | none => simp [smd_key_seen]
        | some k => simp [smd_key_seen, sindex_has_key_cons, hin']
      rw [sindex_n_indexes_cons, if_neg (by simp [hin']), hskip, hseen]
      simpa using ih'

/-- Claim C1 (counterexample): a snapshot in which the exact composed key
is already present, but two live entries of the namespace carry the
requested indexname. The claim requires the idempotent success reply;
the code replies found/ambiguous, because the unique-name-match branch
and the ambiguity branch are checked without regard to the composed key
being present. Snapshot: keys ns1|k1 (the composed key) and ns1|k2, both
named idx. -/
theorem sindex_create_exact_key_not_success :
    (find_sindex_key "ns1" "idx" (some "ns1|k1")
        [{ key := "ns1|k1", value := some "idx" }, { key := "ns1|k2", value := some "idx" }]).has_smd_key
        = true ∧
      info_command_sindex_create_decide
          (find_sindex_key "ns1" "idx" (some "ns1|k1")
            [{ key := "ns1|k1", value := some "idx" }, { key := "ns1|k2", value := some "idx" }])
          "ns1|k1" 256
        = SindexCreateReply.failAmbiguous := by
  constructor
  · rfl
  · rfl

/-- Claim C1 (amended): for every SMD snapshot, namespace, index name,
composed key and cap, the create decision is characterized as follows,
writing L for the keys of the live namespace entries named indexname:
idempotent success exactly when L = [composed key] (the unique name match
is the composed key); found/different-definition exactly when L = [k] for
some k different from the composed key; found/ambiguous exactly when L
has two or more entries (even if the composed key is present);
max-count exactly when L is empty, the composed key is NOT present among
the live namespace entries, and the namespace holds at least the cap many
definitions; otherwise the blocking set is issued (and the command replies
ok unless the SMD apply times out). -/
theorem sindex_create_decide_characterization (items : List SmdItem)
    (ns iname smdk : String) (maxN : Nat) :
    (info_command_sindex_create_decide (find_sindex_key ns iname (some smdk) items) smdk maxN
          = SindexCreateReply.okExisting
        ↔ sindex_match_keys ns iname items = [smdk]) ∧
      (info_command_sindex_create_decide (find_sindex_key ns iname (some smdk) items) smdk maxN
            = SindexCreateReply.failDifferentDef
          ↔ ∃ k, sindex_match_keys ns iname items = [k] ∧ k ≠ smdk) ∧
      (info_command_sindex_create_decide (find_sindex_key ns iname (some smdk) items) smdk maxN
            = SindexCreateReply.failAmbiguous
          ↔ 2 ≤ (sindex_match_keys ns iname items).length) ∧
      (info_command_sindex_create_decide (find_sindex_key ns iname (some smdk) items) smdk maxN
            = SindexCreateReply.failMaxCount
          ↔ sindex_match_keys ns iname items = [] ∧ sindex_has_key ns smdk items = false ∧
              maxN ≤ sindex_n_indexes ns items) ∧
      (info_command_sindex_create_decide (find_sindex_key ns iname (some smdk) items) smdk maxN
            = SindexCreateReply.issueSet
          ↔ sindex_match_keys ns iname items = [] ∧
              (sindex_has_key ns smdk items = true ∨ sindex_n_indexes ns items < maxN)) := by
  obtain ⟨e1, e2, e3, e4, e5, e6, e7⟩ := find_sindex_key_foldl_spec items
    { ns_name := ns
      index_name := iname
      smd_key := some smdk
      found_key := none
      n_name_matches := 0
      n_indexes := 0
      has_smd_key := false }
  simp only at e1 e2 e3 e4 e5 e6 e7
  rw [find_sindex_key]
  unfold info_command_sindex_create_decide
  rw [e3, e4, e5, e7]
  simp only [Nat.zero_add, Bool.false_or, smd_key_seen]
  rcases hL : sindex_match_keys ns iname items with _ | ⟨k, L⟩
  · simp only [found_key_spec, List.length_nil]
    by_cases hhk : sindex_has_key ns smdk items = true
    · simp [hhk]
    · have hf : sindex_has_key ns smdk items = false := by
        cases h : sindex_has_key ns smdk items
        · rfl
        · exact absurd h hhk
      by_cases hcap : maxN ≤ sindex_n_indexes ns items
      · simp [hf, hcap]
      · simp [hf, hcap]
        omega
  · rcases L with _ | ⟨k2, L2⟩
    · simp only [found_key_spec, if_pos rfl]
      by_cases hk : k = smdk
      · simp [hk]
      · simp [hk]
    · simp [found_key_spec]

/-! ## Config mutator (info_command_config_set_threadsafe,
thr_info.c:2309-3612)

The mutator parses the context parameter, dispatches on it and on the
first recognized key, validates the value and either applies the change
and appends the literal "ok", or jumps to the single Error exit which
appends the literal "error" (thr_info.c:3605-3611). No other text is ever
appended by this function and there is no other exit. -/

/-- Modelled from the spec: cf_str_atoi of the external cf string library
(not part of the two staged files) parses a decimal integer with an
optional leading minus sign and rejects anything else. -/
def cf_str_atoi (s : List Char) : Option Int :=
  match s with
  | [] => none
  | '-' :: ds =>
    if ds ≠ [] ∧ ds.all (fun c => c.isDigit) then
      some (-(Int.ofNat (ds.foldl (fun n c => n * 10 + (c.toNat - 48)) 0)))
    else none
  | ds =>
    if ds ≠ [] ∧ ds.all (fun c => c.isDigit) then
      some (Int.ofNat (ds.foldl (fun n c => n * 10 + (c.toNat - 48)) 0))
    else none

/-- Modelled from the spec: cf_str_atoi_u64 of the external cf string
library parses an unsigned decimal integer. -/
def cf_str_atoi_u64 (s : List Char) : Option Nat :=
  if s ≠ [] ∧ s.all (fun c => c.isDigit) then
    some (s.foldl (fun n c => n * 10 + (c.toNat - 48)) 0)
  else none

/-- A boolean config value is accepted as true when it STARTS with "true"
or "yes": the source compares with strncmp(context, "true", 4) and
strncmp(context, "yes", 3) (e.g. thr_info.c:2516). -/
def config_bool_true (v : List Char) : Bool :=
  "true".toList.isPrefixOf v || "yes".toList.isPrefixOf v

/-- A boolean config value is accepted as false when it starts with
"false" or "no" (strncmp with lengths 5 and 2). -/
def config_bool_false (v : List Char) : Bool :=
  "false".toList.isPrefixOf v || "no".toList.isPrefixOf v

/-- The primitive steps a histogram-enablement branch performs, in
program order. -/
inductive HistToggleAction where
  | clearHist
  | setFlag (enabled : Bool)
deriving DecidableEq

/-- The ordered actions of a histogram-enablement toggle such as
enable-hist-info (thr_info.c:2545-2561) or enable-benchmarks-fabric
(thr_info.c:2515-2531), given the current flag: enabling clears the
histogram first when the flag was clear, then sets the flag; disabling
clears the flag and then always clears the histogram; an unrecognized
value fails (none, reaching the Error exit). -/
def hist_toggle_actions (cur_enabled : Bool) (v : List Char) : Option (List HistToggleAction) :=
  if config_bool_true v then
    some ((if cur_enabled then [] else [HistToggleAction.clearHist]) ++
      [HistToggleAction.setFlag true])
  else if config_bool_false v then
    some [HistToggleAction.setFlag false, HistToggleAction.clearHist]
  else
    none

/-- Apply one toggle action to the (flag, histogram contents) pair. -/
def apply_hist_action (st : Bool × List Nat) (a : HistToggleAction) : Bool × List Nat :=
  match a with
  | HistToggleAction.clearHist => (st.1, [])
  | HistToggleAction.setFlag b => (b, st.2)

/-- Run a toggle's actions in order. -/
def run_hist_actions (st : Bool × List Nat) (acts : List HistToggleAction) : Bool × List Nat :=
  acts.foldl apply_hist_action st

/-- The namespace configuration fields the modelled branches touch. -/
structure NsConfig where
  name : String
  memory_size : Nat
  hwm_disk_pct : Nat
deriving DecidableEq

/-- The global configuration fields the modelled branches touch. The two
histogram pairs carry the flag and the abstract histogram contents. -/
structure ConfigState where
  advertise_ipv6 : Bool
  transaction_retry_ms : Int
  ticker_interval : Int
  query_max_done : Int
  fabric_benchmarks_enabled : Bool
  fabric_hist : List Nat
  info_hist_enabled : Bool
  info_hist : List Nat
  namespaces : List NsConfig
deriving DecidableEq

/-- External collaborators of the mutator, abstracted: the edition gate
(as_config_error_enterprise_only is true in a community build and makes
the gated branches fail), the security and XDR sub-config appliers, and
the outcome of the remaining key branches of each context, which all
follow the same validate-then-apply-or-goto-Error shape (some b reports
that such a key was recognized and its application succeeded or failed;
none means no key of the request is recognized, reaching the final else).
The remaining branches of a context are collapsed into one residual
lookup placed at the end of the modelled chain. -/
structure ConfigSetEnv where
  error_enterprise_only : Bool
  security_set_ok : Bool
  xdr_set_ok : Bool
  residual_service : String → Option Bool
  residual_network : String → Option Bool
  residual_namespace : String → String → Option Bool

/-- The memory-size branch (thr_info.c:2752-2766), given the current
value and the parsed requested value: the source first raises the stored
value if the request is larger, then rejects a request below half the
(possibly already raised) stored value, then stores the request. Returns
the stored value and whether the branch succeeded. -/
def memory_size_set (cur val : Nat) : Nat × Bool :=
  let m := if val > cur then val else cur
  if val < m / 2 then (m, false)
  else (val, true)

/-- Replace the fields of the named namespace. -/
def update_ns (l : List NsConfig) (nm : String) (f : NsConfig → NsConfig) : List NsConfig :=
  l.map (fun n => if n.name = nm then f n else n)

/-- The service-context chain of the mutator (thr_info.c:2321-2578),
with the branches for advertise-ipv6 (exact strcmp booleans),
transaction-retry-ms (atoi then nonzero), ticker-interval (atoi),
query-max-done (atoi then 0..10000), enable-benchmarks-fabric and
enable-hist-info (histogram toggles) translated from the source and the
remaining keys represented by the residual outcome; an unrecognized key
reaches the final else and fails. -/
def config_set_service (env : ConfigSetEnv) (st : ConfigState) (params : String) :
    ConfigState × String :=
  match param_get_str params "advertise-ipv6" 1024 with
  | ParamGetResult.found v =>
    if v = "true".toList ∨ v = "yes".toList then
      ({ st with advertise_ipv6 := true }, "ok")
    else if v = "false".toList ∨ v = "no".toList then
      ({ st with advertise_ipv6 := false }, "ok")
    else (st, "error")
  | _ =>
  match param_get_str params "transaction-retry-ms" 1024 with
  | ParamGetResult.found v =>
    match cf_str_atoi v with
    | none => (st, "error")
    | some i =>
      if i = 0 then (st, "error")
      else ({ st with transaction_retry_ms := i }, "ok")
  | _ =>
  match param_get_str params "ticker-interval" 1024 with
  | ParamGetResult.found v =>
    match cf_str_atoi v with
    | none => (st, "error")
    | some i => ({ st with ticker_interval := i }, "ok")
  | _ =>
  match param_get_str params "query-max-done" 1024 with
  | ParamGetResult.found v =>
    match cf_str_atoi v with
    | none => (st, "error")
    | some i =>
      if i < 0 ∨ i > 10000 then (st, "error")
      else ({ st with query_max_done := i }, "ok")
  | _ =>
  match param_get_str params "enable-benchmarks-fabric" 1024 with
  | ParamGetResult.found v =>
    match hist_toggle_actions st.fabric_benchmarks_enabled v with
    | none => (st, "error")
    | some acts =>
      let r := run_hist_actions (st.fabric_benchmarks_enabled, st.fabric_hist) acts
      ({ st with fabric_benchmarks_enabled := r.1, fabric_hist := r.2 }, "ok")
  | _ =>
  match param_get_str params "enable-hist-info" 1024 with
  | ParamGetResult.found v =>
    match hist_toggle_actions st.info_hist_enabled v with
    | none => (st, "error")
    | some acts =>
      let r := run_hist_actions (st.info_hist_enabled, st.info_hist) acts
      ({ st with info_hist_enabled := r.1, info_hist := r.2 }, "ok")
  | _ =>
  match env.residual_service params with
  | some true => (st, "ok")
  | some false => (st, "error")
  | none => (st, "error")

/-- The namespace-context chain (thr_info.c:2682-3581): the id parameter
is required and must name an existing namespace; the memory-size and
high-water-disk-pct branches are translated from the source
(thr_info.c:2752-2773) and the remaining keys are the residual; an
unrecognized key fails. -/
def config_set_namespace (env : ConfigSetEnv) (st : ConfigState) (params : String) :
    ConfigState × String :=
  match param_get_str params "id" 1024 with
  | ParamGetResult.found nsv =>
    let nsname := String.mk nsv
    match st.namespaces.find? (fun n => n.name == nsname) with
    | none => (st, "error")
    | some ns =>
      match param_get_str params "memory-size" 1024 with
      | ParamGetResult.found v =>
        match cf_str_atoi_u64 v with
        | none => (st, "error")
        | some val =>
          let r := memory_size_set ns.memory_size val
          let nss := update_ns st.namespaces nsname (fun n => { n with memory_size := r.1 })
          ({ st with namespaces := nss }, if r.2 then "ok" else "error")
      | _ =>
      match param_get_str params "high-water-disk-pct" 1024 with
      | ParamGetResult.found v =>
        match cf_str_atoi v with
        | none => (st, "error")
        | some i =>
          if i < 0 ∨ i > 100 then (st, "error")
          else
            let nss := update_ns st.namespaces nsname (fun n => { n with hwm_disk_pct := i.toNat })
            ({ st with namespaces := nss }, "ok")
      | _ =>
      match env.residual_namespace nsname params with
      | some true => (st, "ok")
      | some false => (st, "error")
      | none => (st, "error")
  | _ => (st, "error")

/-- info_command_config_set_threadsafe (thr_info.c:2309-3612): parse the
context parameter (any failure, including too-long, reaches the Error
exit), dispatch on its value, and reply "ok" on the single success exit
or "error" at the single Error label. The network stanza is fully
represented by its residual; security and XDR are gated on the edition
and delegated to their sub-config appliers. -/
def info_command_config_set_threadsafe (env : ConfigSetEnv) (st : ConfigState)
    (params : String) : ConfigState × String :=
  match param_get_str params "context" 1024 with
  | ParamGetResult.found ctx =>
    if ctx = "service".toList then config_set_service env st params
    else if ctx = "network".toList then
      match env.residual_network params with
      | some true => (st, "ok")
      | some false => (st, "error")
      | none => (st, "error")
    else if ctx = "namespace".toList then config_set_namespace env st params
    else if ctx = "security".toList then
      if env.error_enterprise_only then (st, "error")
      else if env.security_set_ok then (st, "ok") else (st, "error")
    else if ctx = "xdr".toList then
      if env.error_enterprise_only then (st, "error")
      else if env.xdr_set_ok then (st, "ok") else (st, "error")
    else (st, "error")
  | _ => (st, "error")

lemma config_set_service_reply (env : ConfigSetEnv) (st : ConfigState) (params : String) :
    (config_set_service env st params).2 = "ok" ∨ (config_set_service env st params).2 = "error" := by
  unfold config_set_service
  repeat' split
  all_goals simp

lemma config_set_namespace_reply (env : ConfigSetEnv) (st : ConfigState) (params : String) :
    (config_set_namespace env st params).2 = "ok" ∨
      (config_set_namespace env st params).2 = "error" := by
  unfold config_set_namespace
  repeat' split
  all_goals simp
  all_goals repeat' split
  all_goals simp

/-- Claim C2: for every config-set request, over all contexts and keys,
the reply text appended by the mutator is exactly the literal "ok" when
the mutation is applied and exactly the literal "error" in every failure
case (unknown context, unknown key, malformed value, failed validation,
edition gate): the function has one success exit appending "ok" and one
Error label appending "error", and appends nothing else. -/
theorem config_set_reply_ok_or_error (env : ConfigSetEnv) (st : ConfigState) (params : String) :
    ((info_command_config_set_threadsafe env st params).2 = "ok" ∨
        (info_command_config_set_threadsafe env st params).2 = "error") ∧
      (param_get_str params "context" 1024 ≠ ParamGetResult.found "service".toList →
        param_get_str params "context" 1024 ≠ ParamGetResult.found "network".toList →
        param_get_str params "context" 1024 ≠ ParamGetResult.found "namespace".toList →
        param_get_str params "context" 1024 ≠ ParamGetResult.found "security".toList →
        param_get_str params "context" 1024 ≠ ParamGetResult.found "xdr".toList →
        (info_command_config_set_threadsafe env st params).2 = "error") := by
  constructor
  · unfold info_command_config_set_threadsafe
    repeat' split
    all_goals first
      | exact config_set_service_reply env st params
      | exact config_set_namespace_reply env st params
      | simp
  · intro h1 h2 h3 h4 h5
    unfold info_command_config_set_threadsafe
    rcases hctx : param_get_str params "context" 1024 with ctx | _ | _
    · rw [hctx] at h1 h2 h3 h4 h5
      have e1 : ¬ (ctx = "service".toList) := fun he => h1 (by rw [he])
      have e2 : ¬ (ctx = "network".toList) := fun he => h2 (by rw [he])
      have e3 : ¬ (ctx = "namespace".toList) := fun he => h3 (by rw [he])
      have e4 : ¬ (ctx = "security".toList) := fun he => h4 (by rw [he])
      have e5 : ¬ (ctx = "xdr".toList) := fun he => h5 (by rw [he])
      simp only [String.toList] at e1 e2 e3 e4 e5
      simp [e1, e2, e3, e4, e5]
    · rfl
    · rfl

/-- Claim C3: memory-size behaviour against the current value V
(thr_info.c:2752-2766): a request equal to V is accepted and leaves V; any
increase is accepted and stored; a request below V/2 is rejected; and every
rejected request leaves the stored value equal to V (the transient raise on
line 2759 only fires for requests above V, which are never rejected). -/
theorem memory_size_set_spec (cur val : Nat) :
    (memory_size_set cur cur = (cur, true)) ∧
      (cur < val → memory_size_set cur val = (val, true)) ∧
      (val < cur / 2 → (memory_size_set cur val).2 = false) ∧
      ((memory_size_set cur val).2 = false → (memory_size_set cur val).1 = cur) := by
  refine ⟨?_, ?_, ?_, ?_⟩
  · unfold memory_size_set
    simp
    omega
  · intro h
    unfold memory_size_set
    rw [if_pos h, if_neg (by omega)]
  · intro h
    unfold memory_size_set
    have hng : ¬ (val > cur) := by omega
    rw [if_pos (by rw [if_neg hng]; omega)]
  · intro h
    unfold memory_size_set at h ⊢
    by_cases hg : val > cur
    · rw [if_pos hg] at h ⊢
      by_cases hlt : val < val / 2
      · omega
      · rw [if_neg hlt] at h
        simp at h
    · rw [if_neg hg] at h ⊢
      by_cases hlt : val < cur / 2
      · rw [if_pos hlt]
      · rw [if_neg hlt] at h
        simp at h

/-- Witness for claim C3 with its hypotheses discharged at V = 100:
100 is accepted unchanged, 150 is accepted, 49 is rejected and leaves
the stored value at 100. -/
theorem memory_size_set_spec_witness :
    memory_size_set 100 100 = (100, true) ∧
      memory_size_set 100 150 = (150, true) ∧
      (memory_size_set 100 49).2 = false ∧
      (memory_size_set 100 49).1 = 100 :=
  ⟨(memory_size_set_spec 100 100).1,
    (memory_size_set_spec 100 150).2.1 (by omega),
    (memory_size_set_spec 100 49).2.2.1 (by omega),
    (memory_size_set_spec 100 49).2.2.2 ((memory_size_set_spec 100 49).2.2.1 (by omega))⟩

/-- Claim C8: for a histogram-enablement toggle with current flag b and
histogram contents h: enabling from disabled performs the clear BEFORE
setting the flag (action order) and ends with the flag set and an empty
histogram; disabling clears the histogram AFTER clearing the flag and
ends with the flag clear and an empty histogram; enabling while already
enabled performs no clear and preserves the histogram. -/
theorem hist_toggle_spec (b : Bool) (h : List Nat) (v : List Char) :
    (b = false → config_bool_true v = true →
      hist_toggle_actions b v =
          some [HistToggleAction.clearHist, HistToggleAction.setFlag true] ∧
        run_hist_actions (b, h) [HistToggleAction.clearHist, HistToggleAction.setFlag true]
          = (true, [])) ∧
      (b = true → config_bool_true v = true →
        hist_toggle_actions b v = some [HistToggleAction.setFlag true] ∧
          run_hist_actions (b, h) [HistToggleAction.setFlag true] = (true, h)) ∧
      (config_bool_true v = false → config_bool_false v = true →
        hist_toggle_actions b v =
            some [HistToggleAction.setFlag false, HistToggleAction.clearHist] ∧
          run_hist_actions (b, h) [HistToggleAction.setFlag false, HistToggleAction.clearHist]
            = (false, [])) := by
  refine ⟨?_, ?_, ?_⟩
  · intro hb ht
    subst hb
    constructor
    · unfold hist_toggle_actions
      rw [if_pos ht]
      simp
    · simp [run_hist_actions, apply_hist_action, List.foldl]
  · intro hb ht
    subst hb
    constructor
    · unfold hist_toggle_actions
      rw [if_pos ht]
      simp
    · simp [run_hist_actions, apply_hist_action, List.foldl]
  · intro ht hf
    constructor
    · unfold hist_toggle_actions
      rw [if_neg (by simp [ht]), if_pos hf]
    · simp [run_hist_actions, apply_hist_action, List.foldl]

/-- Witness for claim C8 at concrete inputs: the enable-from-disabled,
enable-while-enabled and disable transitions on the histogram [7]
evaluated for the value "true" and "false" respectively. -/
theorem hist_toggle_spec_witness :
    (hist_toggle_actions false "true".toList =
        some [HistToggleAction.clearHist, HistToggleAction.setFlag true] ∧
      run_hist_actions (false, [7]) [HistToggleAction.clearHist, HistToggleAction.setFlag true]
        = (true, [])) ∧
      (hist_toggle_actions true "true".toList = some [HistToggleAction.setFlag true] ∧
        run_hist_actions (true, [7]) [HistToggleAction.setFlag true] = (true, [7])) ∧
      (hist_toggle_actions true "false".toList =
          some [HistToggleAction.setFlag false, HistToggleAction.clearHist] ∧
        run_hist_actions (true, [7]) [HistToggleAction.setFlag false, HistToggleAction.clearHist]
          = (false, [])) :=
  ⟨(hist_toggle_spec false [7] "true".toList).1 rfl (by decide),
    (hist_toggle_spec true [7] "true".toList).2.1 rfl (by decide),
    (hist_toggle_spec true [7] "false".toList).2.2 (by decide) (by decide)⟩

/-! ## cluster-stable (info_command_cluster_stable, thr_info.c:803-919)

The command reads the cluster key, checks migrations, optionally checks a
target size, an ignore-migrations flag and a single namespace, re-reads
the cluster key, and appends the begin key in hex. Every validation
failure appends an error literal and returns at once - except the final
cluster-key comparison (thr_info.c:911-914), which appends the
unstable-cluster literal but does NOT return, so the begin key hex is
appended right after it. -/

/-- The cluster state the command reads, abstracted: the cluster key at
the first read (thr_info.c:809) and at the re-read (thr_info.c:911), the
migration gate, the exchange cluster size, the total remaining migrations
over all namespaces, and per-namespace remaining work (the sum of tx and
rx partitions remaining plus unavailable and dead partitions). -/
structure ClusterStableEnv where
  begin_cluster_key : Nat
  end_cluster_key : Nat
  migrations_allowed : Bool
  cluster_size : Nat
  remaining_migrations : Nat
  namespaces : List (String × Nat)

/-- Modelled from the spec: cf_dyn_buf_append_uint64_x of the external cf
library appends the lowercase hexadecimal digits of the value. -/
def append_uint64_x (n : Nat) : String :=
  String.mk (Nat.toDigits 16 n)

/-- Modelled from the spec: cf_str_atoi_u32 of the external cf string
library parses an unsigned decimal integer. -/
def cf_str_atoi_u32 (s : List Char) : Option Nat :=
  if s ≠ [] ∧ s.all (fun c => c.isDigit) then
    some (s.foldl (fun n c => n * 10 + (c.toNat - 48)) 0)
  else none

/-- The namespace/migration section of cluster-stable (thr_info.c:871-909)
followed by the final key comparison and the hex append
(thr_info.c:911-916): faithful to the source, the reply on a changed
cluster key is the unstable-cluster literal WITH the hex key appended
after it, since that branch does not return. -/
def cluster_stable_tail (env : ClusterStableEnv) (params : String)
    (ignore_migrations : Bool) : String :=
  let checked : Option String :=
    if ignore_migrations then none
    else
      match param_get_str params "namespace" 32 with
      | ParamGetResult.tooLong => some "ERROR::bad-namespace"
      | ParamGetResult.missing =>
        if env.remaining_migrations ≠ 0 then some "ERROR::unstable-cluster" else none
      | ParamGetResult.found nsv =>
        match env.namespaces.find? (fun p => p.1 == String.mk nsv) with
        | none => some "ERROR::unknown-namespace"
        | some p => if p.2 ≠ 0 then some "ERROR::unstable-cluster" else none
  match checked with
  | some err => err
  | none =>
    (if env.begin_cluster_key ≠ env.end_cluster_key then "ERROR::unstable-cluster" else "")
      ++ append_uint64_x env.begin_cluster_key

/-- The ignore-migrations section (thr_info.c:841-869) followed by the
tail. -/
def cluster_stable_after_size (env : ClusterStableEnv) (params : String) : String :=
  match param_get_str params "ignore-migrations" 6 with
  | ParamGetResult.tooLong => "ERROR::bad-ignore-migrations"
  | ParamGetResult.missing => cluster_stable_tail env params false
  | ParamGetResult.found v =>
    if v = "true".toList ∨ v = "yes".toList then cluster_stable_tail env params true
    else if v = "false".toList ∨ v = "no".toList then cluster_stable_tail env params false
    else "ERROR::bad-ignore-migrations"

/-- info_command_cluster_stable (thr_info.c:803-919). -/
def info_command_cluster_stable (env : ClusterStableEnv) (params : String) : String :=
  if env.migrations_allowed = false then "ERROR::unstable-cluster"
  else
    match param_get_str params "size" 4 with
    | ParamGetResult.tooLong => "ERROR::bad-size"
    | ParamGetResult.found s =>
      (match cf_str_atoi_u32 s with
      | none => "ERROR::bad-size"
      | some target =>
        if target ≠ env.cluster_size then "ERROR::cluster-not-specified-size"
        else cluster_stable_after_size env params)
    | ParamGetResult.missing => cluster_stable_after_size env params

/-- A run of cluster-stable in which every namespace shows zero remaining
migrations but the cluster key changes between the first read (1) and the
re-read (2) during collection. -/
def cluster_stable_changed_key_env : ClusterStableEnv :=
  { begin_cluster_key := 1
    end_cluster_key := 2
    migrations_allowed := true
    cluster_size := 1
    remaining_migrations := 0
    namespaces := [] }

/-- Claim C5 (code bug): when the cluster key changed during collection
and all migration checks pass, the source appends the unstable-cluster
error literal but, unlike every other error path of the command, does not
return (thr_info.c:911-916), so the hex cluster key is appended right
after it: the reply body is NOT the bare error literal the specification
requires. -/
theorem cluster_stable_key_change_reply :
    info_command_cluster_stable cluster_stable_changed_key_env "" =
        "ERROR::unstable-cluster" ++ append_uint64_x 1 ∧
      info_command_cluster_stable cluster_stable_changed_key_env "" ≠
        "ERROR::unstable-cluster" := by
  constructor
  · rfl
  · decide

/-! ## Info worker pool (thr_info_fn, thr_info.c:4585-4650;
info_set_num_info_threads, thr_info.c:4668-4688)

Workers loop popping the shared queue; an item whose file handle is NULL
is a termination sentinel: the worker breaks out of its loop at once,
before popping anything else. Resizing enqueues one sentinel per worker
to remove, or spawns the missing workers. -/

/-- An item of the info work queue: a request, or the NULL-handle
termination sentinel (thr_info.c:4596-4598). -/
inductive InfoWorkItem where
  | request (r : Nat)
  | sentinel
deriving DecidableEq

/-- How many requests a worker popping the given queue processes before
it exits: the thr_info_fn loop handles requests one by one and breaks on
the first sentinel, before touching another item. -/
def worker_requests_before_exit : List InfoWorkItem → Nat
  | [] => 0
  | InfoWorkItem.sentinel :: _ => 0
  | InfoWorkItem.request _ :: rest => 1 + worker_requests_before_exit rest

/-- The pool state: the configured thread count g_config.n_info_threads,
the number of live workers, and the termination sentinels still queued. -/
structure InfoThreadPool where
  n_info_threads : Nat
  live : Nat
  sentinels : Nat
deriving DecidableEq

/-- info_set_num_info_threads (thr_info.c:4668-4688): when shrinking, the
loop enqueues one sentinel per removed worker while decrementing the
configured count; when growing, it spawns one worker per missing thread
while incrementing it. -/
def info_set_num_info_threads (st : InfoThreadPool) (n : Nat) : InfoThreadPool :=
  if st.n_info_threads > n then
    { n_info_threads := n
      live := st.live
      sentinels := st.sentinels + (st.n_info_threads - n) }
  else
    { n_info_threads := n
      live := st.live + (n - st.n_info_threads)
      sentinels := st.sentinels }

/-- One queued sentinel is dequeued by some worker, which exits. -/
def pool_drain_sentinel (st : InfoThreadPool) : InfoThreadPool :=
  if st.sentinels = 0 then st
  else
    { n_info_threads := st.n_info_threads
      live := st.live - 1
      sentinels := st.sentinels - 1 }

/-- Dequeue k sentinels, one worker exiting per sentinel. -/
def pool_drain_n (st : InfoThreadPool) : Nat → InfoThreadPool
  | 0 => st
  | k + 1 => pool_drain_n (pool_drain_sentinel st) k

lemma pool_drain_n_spec (k : Nat) :
    ∀ st : InfoThreadPool, k ≤ st.sentinels →
      pool_drain_n st k =
        { n_info_threads := st.n_info_threads
          live := st.live - k
          sentinels := st.sentinels - k } := by
  induction k with
  | zero => intro st _; simp [pool_drain_n]
  | succ k ih =>
    intro st hk
    have hs : st.sentinels ≠ 0 := by omega
    rw [pool_drain_n, pool_drain_sentinel, if_neg hs]
    rw [ih _ (by simp; omega)]
    simp
    constructor <;> omega

/-- Claim C6: for the info worker pool, assuming the bookkeeping
invariant that every live worker is either configured or owes its exit to
a queued sentinel (live = configured + pending sentinels): a worker that
dequeues a sentinel processes no further item; shrinking to n enqueues
exactly (old - n) sentinels and spawns nothing; growing to n spawns
exactly (n - old) workers and enqueues nothing; the invariant is
preserved; and once the pending sentinels drain, the live worker count is
exactly n. -/
theorem info_pool_resize_spec (st : InfoThreadPool) (n : Nat)
    (hinv : st.live = st.n_info_threads + st.sentinels) :
    (∀ q : List InfoWorkItem,
        worker_requests_before_exit (InfoWorkItem.sentinel :: q) = 0) ∧
      (info_set_num_info_threads st n).n_info_threads = n ∧
      (n < st.n_info_threads →
        (info_set_num_info_threads st n).sentinels
            = st.sentinels + (st.n_info_threads - n) ∧
          (info_set_num_info_threads st n).live = st.live) ∧
      (st.n_info_threads ≤ n →
        (info_set_num_info_threads st n).live = st.live + (n - st.n_info_threads) ∧
          (info_set_num_info_threads st n).sentinels = st.sentinels) ∧
      (info_set_num_info_threads st n).live
          = (info_set_num_info_threads st n).n_info_threads
            + (info_set_num_info_threads st n).sentinels ∧
      (pool_drain_n (info_set_num_info_threads st n)
            (info_set_num_info_threads st n).sentinels).live = n ∧
      (pool_drain_n (info_set_num_info_threads st n)
            (info_set_num_info_threads st n).sentinels).sentinels = 0 := by
  have hdrain := pool_drain_n_spec (info_set_num_info_threads st n).sentinels
    (info_set_num_info_threads st n) (Nat.le_refl _)
  refine ⟨fun q => rfl, ?_, ?_, ?_, ?_, ?_, ?_⟩
  · unfold info_set_num_info_threads
    by_cases hgt : st.n_info_threads > n <;> simp [hgt]
  · intro hlt
    unfold info_set_num_info_threads
    rw [if_pos (by omega)]
    exact ⟨rfl, rfl⟩
  · intro hle
    unfold info_set_num_info_threads
    rw [if_neg (by omega)]
    exact ⟨rfl, rfl⟩
  · unfold info_set_num_info_threads
    by_cases hgt : st.n_info_threads > n <;> simp [hgt] <;> omega
  · rw [hdrain]
    unfold info_set_num_info_threads at *
    by_cases hgt : st.n_info_threads > n <;> simp [hgt] at hinv ⊢ <;> omega
  · rw [hdrain]
    simp

/-- Witness for claim C6: a pool of 8 configured and live workers with no
pending sentinels, resized to 3: five sentinels are enqueued and after
they drain exactly 3 workers remain. -/
theorem info_pool_resize_spec_witness :
    (info_set_num_info_threads { n_info_threads := 8, live := 8, sentinels := 0 } 3).sentinels = 5 ∧
      (pool_drain_n (info_set_num_info_threads { n_info_threads := 8, live := 8, sentinels := 0 } 3)
          (info_set_num_info_threads { n_info_threads := 8, live := 8, sentinels := 0 } 3).sentinels).live
        = 3 := by
  have h := info_pool_resize_spec { n_info_threads := 8, live := 8, sentinels := 0 } 3 (by decide)
  exact ⟨by simpa using (h.2.2.1 (by decide)).1, h.2.2.2.2.2.1⟩

/-! ## Reply framing (thr_info_fn, thr_info.c:4603-4624)

The worker appends an 8-byte zero placeholder, lets the handlers append
the body, then patches the header in place: byte 0 the protocol version
2, byte 1 the info message type 1, bytes 4..7 the body size
(used_sz - 8) big-endian. Bytes 2 and 3 keep their placeholder zeros. -/

/-- The in-place header patch (thr_info.c:4618-4624) on a buffer that
starts with the 8 placeholder bytes; sz is used_sz - 8, the body length. -/
def patch_info_header (buf : List Nat) : List Nat :=
  match buf with
  | b0 :: b1 :: b2 :: b3 :: _ :: _ :: _ :: _ :: rest =>
    let sz := rest.length
    let _ := b0
    let _ := b1
    2 :: 1 :: b2 :: b3 ::
      (sz / 2 ^ 24 % 256) :: (sz / 2 ^ 16 % 256) :: (sz / 2 ^ 8 % 256) :: (sz % 256) :: rest
  | _ => buf

/-- A worker's reply buffer: the 8 zero placeholder bytes, the body
appended by the handlers, and the final header patch. -/
def thr_info_reply (body : List Nat) : List Nat :=
  patch_info_header (List.replicate 8 0 ++ body)

/-- Claim C7: after the request lines are processed the header placeholder
is patched so byte 0 is 2 (version), byte 1 is 1 (info type), bytes 2-3
keep their zeros, and bytes 4 through 7 hold the body length (total size
minus 8) big-endian; the body follows unchanged. The 4 length bytes hold
the exact length whenever it fits 32 bits. -/
theorem thr_info_reply_header (body : List Nat) :
    (thr_info_reply body).length = body.length + 8 ∧
      (thr_info_reply body).getD 0 99 = 2 ∧
      (thr_info_reply body).getD 1 99 = 1 ∧
      (thr_info_reply body).getD 2 99 = 0 ∧
      (thr_info_reply body).getD 3 99 = 0 ∧
      (body.length < 2 ^ 32 →
        (thr_info_reply body).getD 4 99 * 2 ^ 24 + (thr_info_reply body).getD 5 99 * 2 ^ 16 +
            (thr_info_reply body).getD 6 99 * 2 ^ 8 + (thr_info_reply body).getD 7 99
          = body.length) ∧
      (thr_info_reply body).drop 8 = body := by
  have hrepl : (List.replicate 8 0 : List Nat) ++ body
      = 0 :: 0 :: 0 :: 0 :: 0 :: 0 :: 0 :: 0 :: body := rfl
  unfold thr_info_reply patch_info_header
  rw [hrepl]
  refine ⟨by simp, rfl, rfl, rfl, rfl, ?_, by simp [List.drop]⟩
  intro hlt
  simp only [List.getD, List.get?]
  show body.length / 2 ^ 24 % 256 * 2 ^ 24 + body.length / 2 ^ 16 % 256 * 2 ^ 16 +
      body.length / 2 ^ 8 % 256 * 2 ^ 8 + body.length % 256 = body.length
  omega

/-- Witness for claim C7 on the one-byte body [65]: header 2,1,0,0 and
big-endian length 1. -/
theorem thr_info_reply_header_witness :
    (thr_info_reply [65]).getD 0 99 = 2 ∧
      (thr_info_reply [65]).getD 4 99 * 2 ^ 24 + (thr_info_reply [65]).getD 5 99 * 2 ^ 16 +
          (thr_info_reply [65]).getD 6 99 * 2 ^ 8 + (thr_info_reply [65]).getD 7 99
        = 1 := by
  have h := thr_info_reply_header [65]
  exact ⟨h.2.1, by simpa using h.2.2.2.2.2.1 (by decide)⟩

/-! ## Ticker fabric rates (log_fabric_rate, ticker.c:324-351)

Once per ticker frame the fabric byte counters are captured, and each
per-interval count is divided by the wall-clock delta in whole seconds,
floored to 1, then stored in the global publishable g_stats fields that
the statistics endpoint reads back verbatim (thr_info.c:533-540). -/

/-- The per-interval fabric byte counts captured by
as_fabric_rate_capture, per channel and direction. -/
structure FabricCapture where
  bulk_s : Nat
  bulk_r : Nat
  ctrl_s : Nat
  ctrl_r : Nat
  meta_s : Nat
  meta_r : Nat
  rw_s : Nat
  rw_r : Nat
deriving DecidableEq

/-- The publishable g_stats rate fields. -/
structure FabricRateStats where
  fabric_bulk_s_rate : Nat
  fabric_bulk_r_rate : Nat
  fabric_ctrl_s_rate : Nat
  fabric_ctrl_r_rate : Nat
  fabric_meta_s_rate : Nat
  fabric_meta_r_rate : Nat
  fabric_rw_s_rate : Nat
  fabric_rw_r_rate : Nat
deriving DecidableEq

/-- The divisor of log_fabric_rate (ticker.c:331-335): the nanosecond
delta in whole seconds, floored to 1. -/
def fabric_dt_sec (delta_time : Nat) : Nat :=
  let dt := delta_time / 1000000000
  if dt < 1 then 1 else dt

/-- log_fabric_rate (ticker.c:324-351): store each captured per-interval
byte count divided by the clamped whole-second delta into the
publishable fields. -/
def log_fabric_rate (delta_time : Nat) (rate : FabricCapture) : FabricRateStats :=
  { fabric_bulk_s_rate := rate.bulk_s / fabric_dt_sec delta_time
    fabric_bulk_r_rate := rate.bulk_r / fabric_dt_sec delta_time
    fabric_ctrl_s_rate := rate.ctrl_s / fabric_dt_sec delta_time
    fabric_ctrl_r_rate := rate.ctrl_r / fabric_dt_sec delta_time
    fabric_meta_s_rate := rate.meta_s / fabric_dt_sec delta_time
    fabric_meta_r_rate := rate.meta_r / fabric_dt_sec delta_time
    fabric_rw_s_rate := rate.rw_s / fabric_dt_sec delta_time
    fabric_rw_r_rate := rate.rw_r / fabric_dt_sec delta_time }

/-- The fabric rate lines of the statistics endpoint (thr_info.c:533-540):
the published fields are read back directly, never recomputed. -/
def info_get_stats_fabric_lines (g : FabricRateStats) : List (String × Nat) :=
  [("fabric_bulk_send_rate", g.fabric_bulk_s_rate),
    ("fabric_bulk_recv_rate", g.fabric_bulk_r_rate),
    ("fabric_ctrl_send_rate", g.fabric_ctrl_s_rate),
    ("fabric_ctrl_recv_rate", g.fabric_ctrl_r_rate),
    ("fabric_meta_send_rate", g.fabric_meta_s_rate),
    ("fabric_meta_recv_rate", g.fabric_meta_r_rate),
    ("fabric_rw_send_rate", g.fabric_rw_s_rate),
    ("fabric_rw_recv_rate", g.fabric_rw_r_rate)]

/-- Claim C9: for every frame delta D nanoseconds, the divisor is
max(1, floor(D / 1e9)), hence never zero, and each published fabric byte
rate equals its captured per-interval count divided by that divisor; the
statistics endpoint reads exactly these stored fields. -/
theorem log_fabric_rate_spec (delta_time : Nat) (rate : FabricCapture) :
    fabric_dt_sec delta_time = max 1 (delta_time / 1000000000) ∧
      0 < fabric_dt_sec delta_time ∧
      info_get_stats_fabric_lines (log_fabric_rate delta_time rate) =
        [("fabric_bulk_send_rate", rate.bulk_s / max 1 (delta_time / 1000000000)),
          ("fabric_bulk_recv_rate", rate.bulk_r / max 1 (delta_time / 1000000000)),
          ("fabric_ctrl_send_rate", rate.ctrl_s / max 1 (delta_time / 1000000000)),
          ("fabric_ctrl_recv_rate", rate.ctrl_r / max 1 (delta_time / 1000000000)),
          ("fabric_meta_send_rate", rate.meta_s / max 1 (delta_time / 1000000000)),
          ("fabric_meta_recv_rate", rate.meta_r / max 1 (delta_time / 1000000000)),
          ("fabric_rw_send_rate", rate.rw_s / max 1 (delta_time / 1000000000)),
          ("fabric_rw_recv_rate", rate.rw_r / max 1 (delta_time / 1000000000))] := by
  have hmax : fabric_dt_sec delta_time = max 1 (delta_time / 1000000000) := by
    unfold fabric_dt_sec
    by_cases h : delta_time / 1000000000 < 1 <;> simp [h] <;> omega
  refine ⟨hmax, by rw [hmax]; omega, ?_⟩
  unfold info_get_stats_fabric_lines log_fabric_rate
  rw [hmax]

/-! ## Request dispatcher (info_some, thr_info.c:4425-4563)

After authentication, the dispatcher scans the request body character by
character. A newline ends a lookup line: the name is searched in the
static list, then the dynamic list, then - when it holds a slash - the
tree list, and the first hit appends its echo, a tab, the value and a
newline. A colon ends a command name; the rest of the line up to the
newline is the parameter string, resolved in the command list with the
per-command authorization. A name found nowhere appends nothing at all
and scanning continues with the next line; a command line with no
terminating newline stops the scan. -/

/-- The endpoint registry: the four singly-linked lists, searched in
order with the first name match winning. Dynamic, tree and command
handlers are producer functions. -/
structure InfoRegistry where
  statics : List (String × String)
  dynamics : List (String × (String → String))
  trees : List (String × (String → String → String))
  commands : List (String × (String → String → String))

/-- The per-command security outcome and the error text appended on a
denied command (append_sec_err_str), abstracted. -/
structure InfoAuthEnv where
  cmd_ok : String → String → Bool
  sec_err : String

/-- Resolution of one lookup line (thr_info.c:4449-4505): statics, then
dynamics, then the tree list for a name holding a slash, split at its
first slash; the appended text, empty when nothing matches. -/
def handle_lookup (reg : InfoRegistry) (name : String) : String :=
  match reg.statics.find? (fun p => p.1 == name) with
  | some p => name ++ "\t" ++ p.2 ++ "\n"
  | none =>
  match reg.dynamics.find? (fun p => p.1 == name) with
  | some p => p.1 ++ "\t" ++ p.2 p.1 ++ "\n"
  | none =>
    if name.toList.contains '/' then
      let pre := String.mk (name.toList.takeWhile (fun ch => ch != '/'))
      let branch := String.mk ((name.toList.dropWhile (fun ch => ch != '/')).drop 1)
      match reg.trees.find? (fun p => p.1 == pre) with
      | some p => p.1 ++ "/" ++ branch ++ "\t" ++ p.2 p.1 branch ++ "\n"
      | none => ""
    else ""

/-- Resolution of one command line (thr_info.c:4526-4554): the command
list is searched; on a hit the echo, the authorization check and the
handler or security error are appended; a name found nowhere appends
nothing. -/
def handle_command (reg : InfoRegistry) (auth : InfoAuthEnv) (name params : String) : String :=
  match reg.commands.find? (fun p => p.1 == name) with
  | some p =>
    name ++ ":" ++ params ++ "\t" ++
      (if auth.cmd_ok name params then p.2 p.1 params else auth.sec_err) ++ "\n"
  | none => ""

/-- The scanner position: accumulating a name token, or accumulating the
parameter characters of the named command. -/
inductive InfoScanMode where
  | name (tok : List Char)
  | params (nm : List Char) (acc : List Char)

/-- The dispatcher scan loop (thr_info.c:4442-4561): a newline closes a
lookup or command line, a colon switches from name to parameters, the
end of the buffer drops any unterminated line ("parameter not terminated"
breaks the loop). Returns the concatenated reply text. -/
def info_some_loop (reg : InfoRegistry) (auth : InfoAuthEnv) :
    List Char → InfoScanMode → String
  | [], _ => ""
  | c :: cs, InfoScanMode.name tok =>
    if c = '\n' then
      handle_lookup reg (String.mk tok) ++ info_some_loop reg auth cs (InfoScanMode.name [])
    else if c = ':' then
      info_some_loop reg auth cs (InfoScanMode.params tok [])
    else
      info_some_loop reg auth cs (InfoScanMode.name (tok ++ [c]))
  | c :: cs, InfoScanMode.params nm acc =>
    if c = '\n' then
      handle_command reg auth (String.mk nm) (String.mk acc) ++
        info_some_loop reg auth cs (InfoScanMode.name [])
    else
      info_some_loop reg auth cs (InfoScanMode.params nm (acc ++ [c]))

/-- info_some (thr_info.c:4425-4563) on an authenticated connection. -/
def info_some (reg : InfoRegistry) (auth : InfoAuthEnv) (buf : String) : String :=
  info_some_loop reg auth buf.toList (InfoScanMode.name [])

lemma info_some_loop_name_accum (reg : InfoRegistry) (auth : InfoAuthEnv) (nm : List Char)
    (h : ∀ c ∈ nm, c ≠ '\n' ∧ c ≠ ':') :
    ∀ (rest tok : List Char),
      info_some_loop reg auth (nm ++ rest) (InfoScanMode.name tok) =
        info_some_loop reg auth rest (InfoScanMode.name (tok ++ nm)) := by
  induction nm with
  | nil => intro rest tok; simp
  | cons c cs ih =>
    intro rest tok
    have h1 : c ≠ '\n' := (h c (by simp)).1
    have h2 : c ≠ ':' := (h c (by simp)).2
    simp only [List.cons_append, info_some_loop, if_neg h1, if_neg h2, List.append_eq]
    rw [ih (fun d hd => h d (by simp [hd])) rest (tok ++ [c])]
    simp

lemma info_some_loop_params_accum (reg : InfoRegistry) (auth : InfoAuthEnv) (ps : List Char)
    (h : ∀ c ∈ ps, c ≠ '\n') :
    ∀ (rest nm acc : List Char),
      info_some_loop reg auth (ps ++ rest) (InfoScanMode.params nm acc) =
        info_some_loop reg auth rest (InfoScanMode.params nm (acc ++ ps)) := by
  induction ps with
  | nil => intro rest nm acc; simp
  | cons c cs ih =>
    intro rest nm acc
    have h1 : c ≠ '\n' := h c (by simp)
    simp only [List.cons_append, info_some_loop, if_neg h1, List.append_eq]
    rw [ih (fun d hd => h d (by simp [hd])) rest nm (acc ++ [c])]
    simp

/-- Claim C10: an authenticated request line whose name matches no
registered endpoint contributes nothing to the reply. For a lookup name
absent from the static, dynamic and tree tables (a name with no slash
never reaches the tree table), the resolution appends no bytes and the
scan continues with the remaining lines unchanged; likewise for a
command line whose name is absent from the command table. -/
theorem info_some_unknown_line_skipped (reg : InfoRegistry) (auth : InfoAuthEnv)
    (name cmd params : String) (rest : List Char)
    (hname : ∀ c ∈ name.toList, c ≠ '\n' ∧ c ≠ ':')
    (hcmd : ∀ c ∈ cmd.toList, c ≠ '\n' ∧ c ≠ ':')
    (hparams : ∀ c ∈ params.toList, c ≠ '\n')
    (hs : reg.statics.find? (fun p => p.1 == name) = none)
    (hd : reg.dynamics.find? (fun p => p.1 == name) = none)
    (ht : reg.trees.find?
        (fun p => p.1 == String.mk (name.toList.takeWhile (fun ch => ch != '/'))) = none)
    (hc : reg.commands.find? (fun p => p.1 == cmd) = none) :
    handle_lookup reg name = "" ∧
      info_some_loop reg auth (name.toList ++ '\n' :: rest) (InfoScanMode.name []) =
        info_some_loop reg auth rest (InfoScanMode.name []) ∧
      info_some_loop reg auth (cmd.toList ++ ':' :: (params.toList ++ '\n' :: rest))
          (InfoScanMode.name []) =
        info_some_loop reg auth rest (InfoScanMode.name []) := by
  have hlook : handle_lookup reg name = "" := by
    unfold handle_lookup
    simp only [hs, hd, ht]
    by_cases hsl : name.toList.contains '/' <;> simp [hsl]
  refine ⟨hlook, ?_, ?_⟩
  · rw [info_some_loop_name_accum reg auth name.toList hname ('\n' :: rest) []]
    simp only [List.nil_append, info_some_loop, if_pos rfl]
    have hmk : String.mk name.toList = name := by
      cases name
      rfl
    rw [hmk, hlook]
    simp
  · rw [info_some_loop_name_accum reg auth cmd.toList hcmd (':' :: (params.toList ++ '\n' :: rest)) []]
    have hcol : ('\n' : Char) ≠ ':' := by decide
    simp only [List.nil_append, info_some_loop, if_neg (by decide : ¬(':' : Char) = '\n'), if_pos rfl]
    rw [info_some_loop_params_accum reg auth params.toList hparams ('\n' :: rest) cmd.toList []]
    simp only [List.nil_append, info_some_loop, if_pos rfl]
    have hmk : String.mk cmd.toList = cmd := by
      cases cmd
      rfl
    have hcmd0 : handle_command reg auth (String.mk cmd.toList) (String.mk params.toList) = "" := by
      unfold handle_command
      rw [hmk, hc]
    rw [hcmd0]
    simp

/-- Witness for claim C10: against a registry holding only the static
entry build, the unknown lookup name nope and the unknown command nocmd
contribute nothing, and the build line that follows them is answered the
same as if they were absent. -/
theorem info_some_unknown_line_skipped_witness :
    handle_lookup
        { statics := [("build", "6.0")], dynamics := [], trees := [], commands := [] }
        "nope" = "" ∧
      info_some_loop
          { statics := [("build", "6.0")], dynamics := [], trees := [], commands := [] }
          { cmd_ok := fun _ _ => true, sec_err := "ERROR:81:not authorized" }
          ("nope".toList ++ '\n' :: "build\n".toList) (InfoScanMode.name []) =
        info_some_loop
          { statics := [("build", "6.0")], dynamics := [], trees := [], commands := [] }
          { cmd_ok := fun _ _ => true, sec_err := "ERROR:81:not authorized" }
          "build\n".toList (InfoScanMode.name []) ∧
      info_some_loop
          { statics := [("build", "6.0")], dynamics := [], trees := [], commands := [] }
          { cmd_ok := fun _ _ => true, sec_err := "ERROR:81:not authorized" }
          ("nocmd".toList ++ ':' :: ("a=1".toList ++ '\n' :: "build\n".toList))
          (InfoScanMode.name []) =
        info_some_loop
          { statics := [("build", "6.0")], dynamics := [], trees := [], commands := [] }
          { cmd_ok := fun _ _ => true, sec_err := "ERROR:81:not authorized" }
          "build\n".toList (InfoScanMode.name []) := by
  have h := info_some_unknown_line_skipped
    { statics := [("build", "6.0")], dynamics := [], trees := [], commands := [] }
    { cmd_ok := fun _ _ => true, sec_err := "ERROR:81:not authorized" }
    "nope" "nocmd" "a=1" "build\n".toList
    (by decide) (by decide) (by decide) (by rfl) (by rfl) (by rfl) (by rfl)
  exact h

end Aerospike
